import Mathlib

/-!
Verification of the T1wPreprocessing batch pipeline (scripts/run.py, scripts/run_hdbet.py,
scripts/run_prepare_input.py) against its specification.

The scripts orchestrate external neuroimaging tools over a BIDS dataset.  We shallowly embed
the decision logic of the scripts: external command execution is represented by the data the
script observes (exit code, captured stdout/stderr), the filesystem by explicit state values,
and Python exceptions by `Except`.  Every definition is translated from the source; the
theorems at the end of the file settle the individual specification claims.
-/

namespace T1wPrep

/-- Python `PipelineError` exception (scripts/run.py line 221), carrying its message. -/
inductive PipelineError where
  | mk (msg : String)
deriving Repr, DecidableEq

/-- Observable outcome of `subprocess.run`: exit code and captured text streams. -/
structure SubprocessResult where
  returncode : Int
  stdout : String
  stderr : String
deriving Repr, DecidableEq

/-- The dictionary returned by `run_command` on the non-raising paths. -/
structure CmdResult where
  cmd_str : String
  stdout : String
  stderr : String
deriving Repr, DecidableEq

/-- Embedding of `run_command` (scripts/run.py lines 236-261; the identical function also
appears in scripts/run_hdbet.py lines 32-57 and scripts/run_prepare_input.py lines 30-55).
The global `__verbose__` flag is passed explicitly; the `subprocess.run` outcome is passed as
data.  The source raises `PipelineError` only inside the `if not __verbose__:` block of the
non-zero exit branch; otherwise it falls through and returns the result dictionary. -/
def run_command (verbose : Bool) (cmd : List String) (res : SubprocessResult) :
    Except PipelineError CmdResult :=
  if res.returncode ≠ 0 then
    if ¬ verbose then
      Except.error (PipelineError.mk ("Error running command: " ++ String.intercalate " " cmd))
    else
      Except.ok ⟨String.intercalate " " cmd, res.stdout, res.stderr⟩
  else
    Except.ok ⟨String.intercalate " " cmd, res.stdout, res.stderr⟩

/-- The container-identity environment variables read by `_get_generated_by`
(scripts/run.py lines 53-67).  `none` models an unset variable. -/
structure ContainerEnv where
  docker_image_tag : Option String
  docker_image_version : Option String
  git_remote : Option String
  apptainer_container : Option String
  singularity_container : Option String
deriving Repr, DecidableEq

/-- One entry of the `GeneratedBy` list of dataset_description.json, with the fields this
pipeline reads and writes (`Name`, `Version`, `CodeURL`, `Container.Type`, `Container.Tag`). -/
structure GeneratedByEntry where
  name : String
  version : String
  codeURL : String
  containerType : String
  containerTag : String
deriving Repr, DecidableEq

/-- Container type selection of `_get_generated_by` (scripts/run.py lines 57-62). -/
def container_type (env : ContainerEnv) : String :=
  if env.apptainer_container.isSome then "apptainer"
  else if env.singularity_container.isSome then "singularity"
  else "docker"

/-- The `gen_dict` value built by `_get_generated_by` (scripts/run.py lines 64-68):
unset environment variables default to "unknown" via `os.environ.get(var, 'unknown')`. -/
def gen_dict (env : ContainerEnv) : GeneratedByEntry :=
  { name := "T1wPreprocessing"
    version := env.docker_image_version.getD "unknown"
    codeURL := env.git_remote.getD "unknown"
    containerType := container_type env
    containerTag := env.docker_image_tag.getD "unknown" }

/-- The per-entry test of the early-return loop in `_get_generated_by` (scripts/run.py
line 53): `gb['Name'] == 'T1wPreprocessing' and gb['Container']['Tag'] ==
os.environ.get('DOCKER_IMAGE_TAG')`.  Note the right-hand side has no default, so with
`DOCKER_IMAGE_TAG` unset the Python comparison is `str == None`, which is `False`; this is
mirrored by comparing with the `Option`-valued variable. -/
def generated_by_match (env : ContainerEnv) (gb : GeneratedByEntry) : Bool :=
  gb.name == "T1wPreprocessing" && env.docker_image_tag == some gb.containerTag

/-- Embedding of `_get_generated_by` (scripts/run.py lines 26-71) for list-shaped input
(the source also wraps a single dict into a one-element list; deep copies are identities on
values).  If some existing entry passes `generated_by_match`, the existing list is returned
unchanged; otherwise `gen_dict` is appended. -/
def _get_generated_by (env : ContainerEnv) (existing : Option (List GeneratedByEntry)) :
    List GeneratedByEntry :=
  match existing with
  | none => [gen_dict env]
  | some ex => if ex.any (generated_by_match env) then ex else ex ++ [gen_dict env]

/-- The `DatasetLinks` mapping of dataset_description.json, modelled as an association list
from dataset name to URI (Python dict preserving insertion order). -/
abbrev DatasetLinks := List (String × String)

/-- Dictionary lookup `dataset_links[name]` / membership `name in dataset_links`. -/
def linksLookup (links : DatasetLinks) (nm : String) : Option String :=
  (links.find? (fun p => p.1 == nm)).map Prod.snd

/-- One iteration of the loop body of `_get_dataset_links` (scripts/run.py lines 105-117):
if the name is already present with a different URI, raise `ValueError`; if present with the
same URI, leave the mapping unchanged; otherwise insert the new pair. -/
def addDatasetLink (links : DatasetLinks) (nm uri : String) : Except String DatasetLinks :=
  match linksLookup links nm with
  | some existing_uri =>
    if existing_uri ≠ uri then
      Except.error ("Dataset link " ++ nm ++ " already exists with URI " ++ existing_uri ++
        ", but new URI " ++ uri ++ " provided")
    else
      Except.ok links
  | none => Except.ok (links ++ [(nm, uri)])

/-- Embedding of `_get_dataset_links` (scripts/run.py lines 73-119).  Each element of
`dataset_link_paths` is represented by the `(Name, URI)` pair that
`_get_single_dataset_link` resolves for it from the linked dataset's description file.
`none` models passing Python `None` (treated as the empty collection, lines 97-103). -/
def _get_dataset_links (existing : Option DatasetLinks)
    (path_links : Option (List (String × String))) : Except String DatasetLinks :=
  (path_links.getD []).foldlM (fun acc p => addDatasetLink acc p.1 p.2) (existing.getD [])

/-- The in-memory form of dataset_description.json, restricted to the fields the scripts
read and write.  `name = none` models a JSON object without a `Name` key; likewise for the
other two fields.  `GeneratedBy` is taken in list shape (see `_get_generated_by`). -/
structure DatasetDescription where
  name : Option String
  generatedBy : Option (List GeneratedByEntry)
  datasetLinks : Option DatasetLinks
deriving Repr, DecidableEq

/-- Outcome of `update_output_dataset`: the in-memory description after the call and
whether the description file was (re)written on disk. -/
structure UpdateOutcome where
  desc : DatasetDescription
  written : Bool
deriving Repr, DecidableEq

/-- Embedding of `update_output_dataset` (scripts/run.py lines 150-216).  `existing` is the
parsed content of dataset_description.json, or `none` when the file does not exist.  When
the file exists, the `GeneratedBy` and `DatasetLinks` fields are recomputed and the file is
rewritten exactly when `ds_modified` is set (lines 206-216): the `GeneratedBy` check fires
when the old field was absent or the new list is longer; the `DatasetLinks` check fires only
when link paths were supplied, and then when the old field was absent or the new mapping is
larger. -/
def update_output_dataset (env : ContainerEnv) (existing : Option DatasetDescription)
    (output_dataset_name : String) (dataset_link_paths : Option (List (String × String))) :
    Except String UpdateOutcome :=
  match existing with
  | none =>
    match dataset_link_paths with
    | none =>
      Except.ok ⟨⟨some output_dataset_name, some (_get_generated_by env none), none⟩, true⟩
    | some _ => do
      let links ← _get_dataset_links none dataset_link_paths
      Except.ok ⟨⟨some output_dataset_name, some (_get_generated_by env none), some links⟩, true⟩
  | some d =>
    if d.name.isNone then
      Except.error "Output dataset description is missing Name"
    else do
      let old_gen_by := d.generatedBy
      let newGen := _get_generated_by env old_gen_by
      let old_ds_links := d.datasetLinks
      let newLinks ← _get_dataset_links old_ds_links dataset_link_paths
      let genModified := old_gen_by.isNone || decide ((old_gen_by.getD []).length < newGen.length)
      let linksModified := dataset_link_paths.isSome &&
        (old_ds_links.isNone || decide ((old_ds_links.getD []).length < newLinks.length))
      Except.ok ⟨⟨d.name, some newGen, some newLinks⟩, genModified || linksModified⟩

/-- Python `str.lstrip()` with no argument: drop leading whitespace. -/
def lstrip (s : String) : String := String.mk (s.data.dropWhile Char.isWhitespace)

/-- Python `str.startswith(p)`. -/
def startswith (s p : String) : Bool := p.data.isPrefixOf s.data

/-- Verdict of the QC gate of `get_qc_data`, together with the diagnostic messages the
source prints when it sets the failure flag. -/
structure QCGate where
  qc_failure : Bool
  messages : List String
deriving Repr, DecidableEq

/-- Message printed at scripts/run.py line 369. -/
def qc_msg_label2 : String := "Neck trimming error: brain mask extends outside trimmed region"

/-- Message printed at scripts/run.py line 373. -/
def qc_msg_label3 : String := "Brain masking error: no brain voxels inside trimmed T1w space"

/-- Embedding of the QC gate of `get_qc_data` (scripts/run.py lines 354-374).  The input is
the captured stdout of `c3d combined_mask -dup -lstat`, represented by its list of lines
(`str.splitlines()` applied to the raw text).  Each line is left-stripped; a line starting
with "2" marks label 2 present, a line starting with "3" marks label 3 present (the
`label2_found` / `label3_found` locals, factored here over the digit string). -/
def label_found (stdout_lines : List String) (d : String) : Bool :=
  (stdout_lines.map lstrip).any (fun l => startswith l d)

/-- The verdict and messages of the QC gate of `get_qc_data` (scripts/run.py lines
358-374): the failure flag is set when label 2 was found or label 3 was not. -/
def get_qc_data_gate (stdout_lines : List String) : QCGate :=
  { qc_failure := label_found stdout_lines "2" || !label_found stdout_lines "3"
    messages := (if label_found stdout_lines "2" then [qc_msg_label2] else []) ++
      (if !label_found stdout_lines "3" then [qc_msg_label3] else []) }

/-- A statistics row of the `c3d -lstat` report for one label, as it appears on the tool's
stdout: some indentation, the label number, whitespace, then the per-label statistics. -/
def lstatLine (pad : Nat) (label : Nat) (rest : String) : String :=
  String.mk (List.replicate pad ' ') ++ toString label ++ " " ++ rest

/-- A PIL RGB image: dimensions plus the pixel map.  `pixel x y` is the colour at column
`x`, row `y` (row 0 is the top row, as in PIL); values outside the canvas are irrelevant. -/
structure PILImage where
  width : Nat
  height : Nat
  pixel : Nat → Nat → Nat × Nat × Nat

/-- The background colour used by `tile_images` (PIL colour name "black"). -/
def black : Nat × Nat × Nat := (0, 0, 0)

/-- `Image.new('RGB', (w, h), color='black')`. -/
def imageNew (w h : Nat) : PILImage := ⟨w, h, fun _ _ => black⟩

/-- `dst.paste(img, (px, py))`: overwrite the box of `dst` whose top-left corner is
`(px, py)` with the pixels of `img`; all other pixels keep their value. -/
def paste (dst img : PILImage) (px py : Nat) : PILImage :=
  { dst with pixel := fun x y =>
      if px ≤ x ∧ x < px + img.width ∧ py ≤ y ∧ y < py + img.height then
        img.pixel (x - px) (y - py)
      else dst.pixel x y }

/-- The zero-fill step of `tile_images` (scripts/run.py lines 302-307): paste the image onto
a black canvas of the same width and the maximum height, aligned to the bottom edge. -/
def zeroFill (max_height : Nat) (img : PILImage) : PILImage :=
  paste (imageNew img.width max_height) img 0 (max_height - img.height)

/-- The stitching loop of `tile_images` (scripts/run.py lines 316-319): paste each image at
the current horizontal offset, advancing the offset by the image's width. -/
def stitchAt : List PILImage → Nat → PILImage → PILImage
  | [], _, acc => acc
  | img :: rest, curw, acc => stitchAt rest (curw + img.width) (paste acc img curw 0)

/-- Embedding of `tile_images` (scripts/run.py lines 293-322), from the loaded input images
to the stitched output image (the source then saves it to `output_path`).  `max` of the
heights is written as a fold from 0, which agrees with Python `max` on every non-empty
list of naturals. -/
def tile_images (images : List PILImage) : PILImage :=
  let max_height := (images.map (fun img => img.height)).foldl max 0
  let zero_filled := images.map (zeroFill max_height)
  let total_width := (zero_filled.map (fun img => img.width)).sum
  stitchAt zero_filled 0 (imageNew total_width max_height)

/-- Character class `[\d\.-]` of the centroid pattern of `reset_origin`
(scripts/run.py line 275). -/
def centroidClassChar (c : Char) : Bool := c.isDigit || c == '.' || c == '-'

/-- The literal part `CENTROID_VOX [` that must precede the three groups. -/
def centroidPrefix : List Char := "CENTROID_VOX [".data

/-- Match the tail of the centroid pattern `([\d\.-]+), ([\d\.-]+), ([\d\.-]+)\]` at the
start of `l` (the character after the literal `CENTROID_VOX [`).  The greedy `+` over a
class disjoint from `,`, ` ` and `]` matches exactly the maximal run of class characters,
so no backtracking is possible and the match is deterministic. -/
def parseCentroidGroups (l : List Char) : Option (String × String × String) :=
  let g1 := l.takeWhile centroidClassChar
  if g1.isEmpty then none else
  match l.dropWhile centroidClassChar with
  | ',' :: ' ' :: r1 =>
    let g2 := r1.takeWhile centroidClassChar
    if g2.isEmpty then none else
    match r1.dropWhile centroidClassChar with
    | ',' :: ' ' :: r2 =>
      let g3 := r2.takeWhile centroidClassChar
      if g3.isEmpty then none else
      match r2.dropWhile centroidClassChar with
      | ']' :: _ => some (String.mk g1, String.mk g2, String.mk g3)
      | _ => none
    | _ => none
  | _ => none

/-- Embedding of `re.search` for the centroid pattern: try a match at every start position
from left to right and return the groups of the first successful one. -/
def searchCentroid : List Char → Option (String × String × String)
  | [] => none
  | c :: rest =>
    match (if centroidPrefix.isPrefixOf (c :: rest) then
        parseCentroidGroups ((c :: rest).drop centroidPrefix.length)
      else none) with
    | some g => some g
    | none => searchCentroid rest

deriving instance DecidableEq for Except

/-- Trace of one `reset_origin` call: the external commands it issued, its outcome, and the
voxel-offset string (if it got as far as building one). -/
structure ResetOriginRun where
  commands : List (List String)
  result : Except PipelineError (String × String)
  centroid_str : Option String
deriving Repr, DecidableEq

/-- Embedding of `reset_origin` (scripts/run.py lines 267-290).  `centroid_stdout` is the
captured stdout of the `c3d input_mask -centroid` call; `pyFloatStr` abstracts the Python
round-trip `str(float(g))` applied to each matched group (floating-point formatting is not
modelled).  On a failed match the function raises `PipelineError` — whose message contains a
literal `{input_mask}`, as the source string lacks the f prefix — and the origin-rewrite
command is never issued.  On success one combined c3d command rewrites the origins of both
the image and the mask to the same voxel-offset string `g1xg2xg3vox`. -/
def reset_origin (pyFloatStr : String → String) (input_image input_mask working_dir : String)
    (centroid_stdout : String) : ResetOriginRun :=
  let output_image := working_dir ++ "/inputOriginReset.nii.gz"
  let output_mask := working_dir ++ "/inputOriginReset_mask.nii.gz"
  let cmd1 := ["c3d", input_mask, "-centroid"]
  match searchCentroid centroid_stdout.data with
  | none =>
    ⟨[cmd1], Except.error (PipelineError.mk "Could not get centroid from mask \x7binput_mask\x7d"),
      none⟩
  | some (g1, g2, g3) =>
    let centroid_str := String.intercalate "x" [pyFloatStr g1, pyFloatStr g2, pyFloatStr g3] ++ "vox"
    let cmd2 := ["c3d", input_image, "-origin-voxel", centroid_str, "-o", output_image,
      input_mask, "-origin-voxel", centroid_str, "-type", "uchar", "-o", output_mask]
    ⟨[cmd1, cmd2], Except.ok (output_image, output_mask), some centroid_str⟩

/-- The `--keep-workdir` policy of the batch driver (scripts/run.py lines 546-548). -/
inductive KeepWorkdir where
  | never
  | on_error
  | always
deriving Repr, DecidableEq

/-- The CLI options of `main` that steer the per-image pipeline. -/
structure ImageConfig where
  trim_neck : Bool
  do_reset_origin : Bool
  keep_workdir : KeepWorkdir
deriving Repr, DecidableEq

/-- The dictionary returned by `get_qc_data`, as observed by `main`: the failure verdict
and whether the QC PNG file referenced by `qc_rgb_png` exists on disk. -/
structure QCData where
  qc_failure : Bool
  qc_png_exists : Bool
deriving Repr, DecidableEq

/-- State of a Python local variable: never assigned, assigned `None`, or holding a value.
Needed because `main` reads the variable `qc_data` inside its exception handler, where it
may be in any of the three states. -/
inductive PyVar (α : Type) where
  | unbound
  | pynone
  | val (a : α)
deriving Repr, DecidableEq

/-- Unhandled Python runtime errors that `main`'s `except PipelineError:` block can itself
raise when it evaluates `qc_data['qc_rgb_png']` (scripts/run.py line 726): a `NameError`
when `qc_data` was never assigned, a `TypeError` when it is `None`. -/
inductive PyCrash where
  | nameError
  | typeError
deriving Repr, DecidableEq

/-- Outcomes of the external-tool stages for one image, as data: whether each stage's
commands succeed, and the QC dictionary `get_qc_data` returns when it completes (`none`
when a command inside `get_qc_data` fails and `PipelineError` propagates). -/
structure StageOutcomes where
  hdbet_ok : Bool
  trim_ok : Bool
  qc : Option QCData
  reset_ok : Bool
  maskvol_ok : Bool
deriving Repr, DecidableEq

/-- The files `main` writes into the output dataset tree for one image. -/
inductive OutputWrite where
  | preprocT1w
  | brainMask
  | t1wSidecar
  | maskSidecar
  | qcPng
  | workdir
deriving Repr, DecidableEq

/-- Result of processing one image in `main`'s loop: the output files written, whether the
image was appended to the pipeline error list, the binding of `qc_data` after the
iteration, and the number of external-command invocations made. -/
structure ImageOutcome where
  writes : List OutputWrite
  error_recorded : Bool
  qc_var : PyVar QCData
  invocations : Nat
deriving Repr, DecidableEq

/-- Commands issued by `run_hdbet` (scripts/run.py lines 424-445): the c3d reorientation
and the hd-bet call. -/
def hdbetInvocations : Nat := 2

/-- Commands issued by `trim_neck` (scripts/run.py lines 459-476): trim_neck.sh and the
c3d pad/reslice call. -/
def trimInvocations : Nat := 2

/-- Commands issued by `get_qc_data` (scripts/run.py lines 337-405): an extra full-coverage
threshold when no trim region is given, then combine, label statistics, and slice
rendering. -/
def qcInvocations (have_trim_region : Bool) : Nat := (if have_trim_region then 0 else 1) + 3

/-- Commands issued by `reset_origin` (scripts/run.py lines 267-290). -/
def resetInvocations : Nat := 2

/-- Commands issued by `get_mask_volume` (scripts/run.py lines 484-495). -/
def maskvolInvocations : Nat := 1

/-- The `except PipelineError:` handler of `main` (scripts/run.py lines 715-730), given the
binding of `qc_data` at the point the exception was raised.  The handler optionally copies
the working directory, then evaluates `qc_data['qc_rgb_png']`: if `qc_data` is unbound this
is a `NameError`, if it is `None` a `TypeError` — either aborts the whole batch.  Otherwise
the QC PNG is copied when the file exists.  (In the crash cases the source records the
error and may copy the working directory before dying; the model only reports the crash.) -/
def handle_error (cfg : ImageConfig) (qcv : PyVar QCData) : Except PyCrash (List OutputWrite) :=
  let wd : List OutputWrite :=
    if cfg.keep_workdir ≠ KeepWorkdir.never then [OutputWrite.workdir] else []
  match qcv with
  | PyVar.unbound => Except.error PyCrash.nameError
  | PyVar.pynone => Except.error PyCrash.typeError
  | PyVar.val q => Except.ok (wd ++ (if q.qc_png_exists then [OutputWrite.qcPng] else []))

/-- The success path of `main`'s loop body (scripts/run.py lines 732-758): copy the
preprocessed image and mask, write both sidecars, copy the QC PNG, and copy the working
directory when `--keep-workdir always`. -/
def success_writes (cfg : ImageConfig) : List OutputWrite :=
  [OutputWrite.preprocT1w, OutputWrite.brainMask, OutputWrite.t1wSidecar,
    OutputWrite.maskSidecar, OutputWrite.qcPng] ++
    (if cfg.keep_workdir = KeepWorkdir.always then [OutputWrite.workdir] else [])

/-- Steps of `main`'s try block from the QC-gate check on (scripts/run.py lines 710-714),
entered once `get_qc_data` has returned `q`: raise on QC failure, then get the mask
volume.  `inv` is the invocation count accumulated so far. -/
def qc_gate_and_volume (cfg : ImageConfig) (st : StageOutcomes) (q : QCData) (inv : Nat) :
    Except PyCrash ImageOutcome :=
  let qcv := PyVar.val q
  if q.qc_failure then
    (handle_error cfg qcv).map (fun ws => ⟨ws, true, qcv, inv⟩)
  else if st.maskvol_ok then
    Except.ok ⟨success_writes cfg, false, qcv, inv + maskvolInvocations⟩
  else
    (handle_error cfg qcv).map (fun ws => ⟨ws, true, qcv, inv + maskvolInvocations⟩)

/-- Steps of `main`'s try block after `get_qc_data` returned `q` (scripts/run.py lines
705-714): the optional origin reset runs before the QC-failure check. -/
def after_qc (cfg : ImageConfig) (st : StageOutcomes) (q : QCData) (inv : Nat) :
    Except PyCrash ImageOutcome :=
  let qcv := PyVar.val q
  if cfg.do_reset_origin then
    if st.reset_ok then
      qc_gate_and_volume cfg st q (inv + resetInvocations)
    else
      (handle_error cfg qcv).map (fun ws => ⟨ws, true, qcv, inv + resetInvocations⟩)
  else
    qc_gate_and_volume cfg st q inv

/-- The body of `main`'s per-image loop after the existing-mask check (scripts/run.py lines
687-758).  `qc0` is the binding of the local variable `qc_data` when the iteration starts
(the variable persists across iterations of the loop; it is unbound on the first one).
`run_hdbet` runs before the `qc_data = None` assignment of line 693, so a brain-extraction
failure reaches the handler with `qc_data` still in its previous state. -/
def image_pipeline (cfg : ImageConfig) (st : StageOutcomes) (qc0 : PyVar QCData) :
    Except PyCrash ImageOutcome :=
  if st.hdbet_ok then
    let qcv : PyVar QCData := PyVar.pynone
    if cfg.trim_neck then
      if st.trim_ok then
        match st.qc with
        | none =>
          (handle_error cfg qcv).map
            (fun ws => ⟨ws, true, qcv, hdbetInvocations + trimInvocations + qcInvocations true⟩)
        | some q => after_qc cfg st q (hdbetInvocations + trimInvocations + qcInvocations true)
      else
        (handle_error cfg qcv).map
          (fun ws => ⟨ws, true, qcv, hdbetInvocations + trimInvocations⟩)
    else
      match st.qc with
      | none =>
        (handle_error cfg qcv).map
          (fun ws => ⟨ws, true, qcv, hdbetInvocations + qcInvocations false⟩)
      | some q => after_qc cfg st q (hdbetInvocations + qcInvocations false)
  else
    (handle_error cfg qc0).map (fun ws => ⟨ws, true, qc0, hdbetInvocations⟩)

/-- Accumulator of `main`'s loop over images: the set of existing output masks (as the
image identifiers whose `_desc-brain_mask.nii.gz` exists), the binding of `qc_data`, and
the external-command invocations so far. -/
structure BatchAcc where
  masks : List String
  qcv : PyVar QCData
  invocations : Nat
deriving Repr, DecidableEq

/-- The loop of `main` over the resolved images (scripts/run.py lines 654-761): an image
whose output mask already exists is skipped before any command runs (lines 677-680);
otherwise the pipeline body runs, and only a successful iteration creates the output
mask. -/
def run_images (cfg : ImageConfig) :
    List (String × StageOutcomes) → BatchAcc → Except PyCrash BatchAcc
  | [], acc => Except.ok acc
  | (img, st) :: rest, acc =>
    if img ∈ acc.masks then
      run_images cfg rest acc
    else
      match image_pipeline cfg st acc.qcv with
      | Except.error e => Except.error e
      | Except.ok out =>
        run_images cfg rest
          ⟨(if out.error_recorded then acc.masks else img :: acc.masks), out.qc_var,
            acc.invocations + out.invocations⟩

/-- Ways one invocation of the batch driver can die: a metadata error propagating out of
`update_output_dataset`, or an unhandled Python error from the per-image handler. -/
inductive BatchAbort where
  | metadata (msg : String)
  | crash (c : PyCrash)
deriving Repr, DecidableEq

/-- Result of one invocation of the batch driver. -/
structure BatchRun where
  desc : DatasetDescription
  desc_written : Bool
  masks : List String
  invocations : Nat
deriving Repr, DecidableEq

/-- One invocation of `main`'s processing phase (scripts/run.py lines 628-761): update the
output dataset description, then run the image loop.  `masks0` and `desc0` describe the
output dataset on disk when the run starts. -/
def run_batch (cfg : ImageConfig) (env : ContainerEnv) (output_name : String)
    (link_paths : Option (List (String × String))) (images : List (String × StageOutcomes))
    (masks0 : List String) (desc0 : Option DatasetDescription) :
    Except BatchAbort BatchRun :=
  match update_output_dataset env desc0 output_name link_paths with
  | Except.error m => Except.error (BatchAbort.metadata m)
  | Except.ok upd =>
    match run_images cfg images ⟨masks0, PyVar.unbound, 0⟩ with
    | Except.error c => Except.error (BatchAbort.crash c)
    | Except.ok acc => Except.ok ⟨upd.desc, upd.written, acc.masks, acc.invocations⟩

/-- The horizontal offset at which `tile_images` pastes input `i`: the sum of the widths
of the inputs before it. -/
def widthsBefore (images : List PILImage) (i : Nat) : Nat :=
  ((images.take i).map (fun im => im.width)).sum

/-- A 2x1 all-grey slice, used as a concrete tiling input. -/
def tileInputA : PILImage := ⟨2, 1, fun _ _ => (9, 9, 9)⟩

/-- A 1x3 all-grey slice, used as a concrete tiling input. -/
def tileInputB : PILImage := ⟨1, 3, fun _ _ => (5, 5, 5)⟩

/-- Pipeline options for the re-run scenario: no neck trim, no origin reset, working
directories never kept. -/
def rerun_cfg : ImageConfig := ⟨false, false, KeepWorkdir.never⟩

/-- One image whose every stage succeeds and whose QC gate passes. -/
def rerun_images : List (String × StageOutcomes) :=
  [("sub-01_ses-01_T1w", ⟨true, true, some ⟨false, true⟩, true, true⟩)]

/-- The dataset link resolved for the input dataset of the re-run scenario. -/
def rerun_links : List (String × String) := [("InputDS", "file:///data/input")]

/-- The dataset description the first run writes when the container-identity variables are
unset: every provenance field defaults to "unknown". -/
def rerun_desc_unset : DatasetDescription :=
  ⟨some "InputDS T1w Preprocessed",
    some [⟨"T1wPreprocessing", "unknown", "unknown", "docker", "unknown"⟩],
    some rerun_links⟩

/-- The dataset description the first run writes when `DOCKER_IMAGE_TAG` is "t1". -/
def rerun_desc_tagged : DatasetDescription :=
  ⟨some "InputDS T1w Preprocessed",
    some [⟨"T1wPreprocessing", "unknown", "unknown", "docker", "t1"⟩],
    some rerun_links⟩

/-! Theorems.  Each claim's theorem is stated over the embeddings above; helper lemmas
come first. -/

theorem addDatasetLink_nodup {links : DatasetLinks} {nm uri : String} {out : DatasetLinks}
    (h : (links.map Prod.fst).Nodup) (he : addDatasetLink links nm uri = Except.ok out) :
    (out.map Prod.fst).Nodup := by
  unfold addDatasetLink at he
  cases hl : linksLookup links nm with
  | some u =>
    rw [hl] at he
    by_cases hu : u = uri
    · obtain rfl : links = out := by simpa [hu] using he
      exact h
    · simp [hu] at he
  | none =>
    rw [hl] at he
    obtain rfl : links ++ [(nm, uri)] = out := by simpa using he
    rw [List.map_append]
    refine h.append (by simp) ?_
    intro a ha hb
    simp only [List.map_cons, List.map_nil, List.mem_singleton] at hb
    subst hb
    obtain ⟨p, hp, hp1⟩ := List.mem_map.mp ha
    unfold linksLookup at hl
    cases hfind : List.find? (fun q => q.1 == a) links with
    | some q => rw [hfind] at hl; simp at hl
    | none =>
      have hq := List.find?_eq_none.mp hfind p hp
      simp [hp1] at hq

theorem dataset_links_fold_nodup :
    ∀ (pls : List (String × String)) (links result : DatasetLinks),
      (links.map Prod.fst).Nodup →
      pls.foldlM (fun acc p => addDatasetLink acc p.1 p.2) links = Except.ok result →
      (result.map Prod.fst).Nodup := by
  intro pls
  induction pls with
  | nil =>
    intro links result h he
    obtain rfl : links = result := by simpa [List.foldlM, pure, Except.pure] using he
    exact h
  | cons p rest ih =>
    intro links result h he
    rw [List.foldlM_cons] at he
    cases ha : addDatasetLink links p.1 p.2 with
    | error e => rw [ha] at he; simp [Bind.bind, Except.bind] at he
    | ok acc =>
      rw [ha] at he
      exact ih acc result (addDatasetLink_nodup h ha) (by simpa [Bind.bind, Except.bind] using he)

/-- C6: registering a dataset link whose name already exists with the same URI is a no-op;
registering an existing name with a different URI raises an error; and when the existing
mapping has no duplicate names, neither does any mapping `_get_dataset_links` returns, so
the result never holds two different URIs under one name. -/
theorem dataset_links_merge_spec (links : DatasetLinks) (pls : List (String × String))
    (nm uri uri' : String) :
    (linksLookup links nm = some uri →
      _get_dataset_links (some links) (some [(nm, uri)]) = Except.ok links) ∧
    (linksLookup links nm = some uri' → uri' ≠ uri →
      ∃ msg, _get_dataset_links (some links) (some [(nm, uri)]) = Except.error msg) ∧
    ((links.map Prod.fst).Nodup →
      ∀ result, _get_dataset_links (some links) (some pls) = Except.ok result →
        (result.map Prod.fst).Nodup) := by
  refine ⟨?_, ?_, ?_⟩
  · intro h
    simp [_get_dataset_links, List.foldlM_cons, List.foldlM, addDatasetLink, h,
      Bind.bind, Except.bind, pure, Except.pure]
  · intro h hne
    refine ⟨"Dataset link " ++ nm ++ " already exists with URI " ++ uri' ++
      ", but new URI " ++ uri ++ " provided", ?_⟩
    simp [_get_dataset_links, List.foldlM_cons, List.foldlM, addDatasetLink, h, hne,
      Bind.bind, Except.bind]
  · intro h result he
    exact dataset_links_fold_nodup pls links result h he

/-- Witness for C6: a same-URI re-registration is a no-op and a conflicting URI errors,
at concrete inputs. -/
theorem dataset_links_merge_spec_witness :
    _get_dataset_links (some [("ds1", "file:///a")]) (some [("ds1", "file:///a")]) =
      Except.ok [("ds1", "file:///a")] ∧
    ∃ msg, _get_dataset_links (some [("ds1", "file:///b")]) (some [("ds1", "file:///a")]) =
      Except.error msg :=
  ⟨(dataset_links_merge_spec [("ds1", "file:///a")] [] "ds1" "file:///a" "file:///a").1
      (by decide),
    (dataset_links_merge_spec [("ds1", "file:///b")] [] "ds1" "file:///a" "file:///b").2.1
      (by decide) (by decide)⟩

/-- C2: evaluation of `run_command` at a failed command.  The claim — that a non-zero exit
code raises `PipelineError` regardless of verbosity — is contradicted by the code: in
verbose mode the `raise` (sitting inside the `if not __verbose__:` block) is skipped and
the result dictionary is returned; only the non-verbose call raises.  This contradicts the
function's own comment "Raises PipelineError if the command returns a non-zero exit
code". -/
theorem run_command_verbose_swallows_failure :
    run_command true ["hd-bet", "-i", "in.nii.gz"] ⟨1, "out", "err"⟩ =
      Except.ok ⟨"hd-bet -i in.nii.gz", "out", "err"⟩ ∧
    run_command false ["hd-bet", "-i", "in.nii.gz"] ⟨1, "out", "err"⟩ =
      Except.error (PipelineError.mk "Error running command: hd-bet -i in.nii.gz") := by
  decide

/-- C5: evaluation of `_get_generated_by` with the container-identity variables unset.
Re-applying the update to its own output appends a second identical entry (the stored tag
is the default string "unknown" while the comparison uses `os.environ.get` with no
default, i.e. `None`), so the update is not idempotent — contradicting its docstring "If
the current pipeline is already present, it will not be added again".  With
`DOCKER_IMAGE_TAG` set, the same double update is the identity. -/
theorem generated_by_duplicate_when_tag_unset :
    (_get_generated_by ⟨none, none, none, none, none⟩
        (some (_get_generated_by ⟨none, none, none, none, none⟩ (some []))) ≠
      _get_generated_by ⟨none, none, none, none, none⟩ (some [])) ∧
    (_get_generated_by ⟨none, none, none, none, none⟩
        (some (_get_generated_by ⟨none, none, none, none, none⟩ (some [])))).length = 2 ∧
    (_get_generated_by ⟨some "v1", none, none, none, none⟩
        (some (_get_generated_by ⟨some "v1", none, none, none, none⟩ (some []))) =
      _get_generated_by ⟨some "v1", none, none, none, none⟩ (some [])) := by
  decide

/-- C9: if no centroid triple can be parsed from the centroid tool's stdout, `reset_origin`
raises `PipelineError` and the only command issued is the centroid probe — the
origin-rewrite command is never invoked; when parsing succeeds, one rewrite command is
issued and it sets the origins of both the image (argument position 3) and the mask
(argument position 8) to the same centroid voxel-offset string. -/
theorem reset_origin_spec (pyFloatStr : String → String)
    (input_image input_mask working_dir stdout : String) :
    (searchCentroid stdout.data = none →
      (reset_origin pyFloatStr input_image input_mask working_dir stdout).result =
        Except.error
          (PipelineError.mk "Could not get centroid from mask \x7binput_mask\x7d") ∧
      (reset_origin pyFloatStr input_image input_mask working_dir stdout).commands =
        [["c3d", input_mask, "-centroid"]]) ∧
    (∀ g1 g2 g3, searchCentroid stdout.data = some (g1, g2, g3) →
      ∃ s, (reset_origin pyFloatStr input_image input_mask working_dir stdout).centroid_str =
          some s ∧
        (reset_origin pyFloatStr input_image input_mask working_dir stdout).result =
          Except.ok (working_dir ++ "/inputOriginReset.nii.gz",
            working_dir ++ "/inputOriginReset_mask.nii.gz") ∧
        (reset_origin pyFloatStr input_image input_mask working_dir stdout).commands.length
          = 2 ∧
        (((reset_origin pyFloatStr input_image input_mask working_dir
            stdout).commands.getD 1 []).getD 2 "" = "-origin-voxel" ∧
          ((reset_origin pyFloatStr input_image input_mask working_dir
            stdout).commands.getD 1 []).getD 3 "" = s) ∧
        (((reset_origin pyFloatStr input_image input_mask working_dir
            stdout).commands.getD 1 []).getD 7 "" = "-origin-voxel" ∧
          ((reset_origin pyFloatStr input_image input_mask working_dir
            stdout).commands.getD 1 []).getD 8 "" = s)) := by
  constructor
  · intro h
    simp [reset_origin, h]
  · intro g1 g2 g3 h
    refine ⟨String.intercalate "x" [pyFloatStr g1, pyFloatStr g2, pyFloatStr g3] ++ "vox",
      ?_⟩
    simp [reset_origin, h]

/-- Witness for C9: the two branches of `reset_origin_spec` at concrete inputs — stdout
with no centroid line, and stdout carrying `CENTROID_VOX [12.3, 45.6, 7.8]`. -/
theorem reset_origin_spec_witness :
    (reset_origin id "t1.nii.gz" "mask.nii.gz" "/tmp/wd" "no centroid reported").commands =
      [["c3d", "mask.nii.gz", "-centroid"]] ∧
    (reset_origin id "t1.nii.gz" "mask.nii.gz" "/tmp/wd"
      "CENTROID_VOX [12.3, 45.6, 7.8]").centroid_str.isSome = true := by
  constructor
  · exact ((reset_origin_spec id "t1.nii.gz" "mask.nii.gz" "/tmp/wd"
      "no centroid reported").1 (by decide)).2
  · obtain ⟨s, hs, -⟩ := (reset_origin_spec id "t1.nii.gz" "mask.nii.gz" "/tmp/wd"
      "CENTROID_VOX [12.3, 45.6, 7.8]").2 "12.3" "45.6" "7.8" (by decide)
    simp [hs]

theorem except_map_ok {ε α β : Type} {f : α → β} {e : Except ε α} {b : β}
    (h : e.map f = Except.ok b) : ∃ a, e = Except.ok a ∧ b = f a := by
  cases e with
  | error _ => simp [Except.map] at h
  | ok a => exact ⟨a, rfl, by simpa [Except.map] using h.symm⟩

theorem handle_error_writes {cfg : ImageConfig} {qcv : PyVar QCData} {ws : List OutputWrite}
    (h : handle_error cfg qcv = Except.ok ws) :
    OutputWrite.preprocT1w ∉ ws ∧ OutputWrite.brainMask ∉ ws ∧
    OutputWrite.t1wSidecar ∉ ws ∧ OutputWrite.maskSidecar ∉ ws := by
  cases qcv with
  | unbound => simp [handle_error] at h
  | pynone => simp [handle_error] at h
  | val q =>
    have hws : (if cfg.keep_workdir ≠ KeepWorkdir.never then [OutputWrite.workdir] else [])
        ++ (if q.qc_png_exists then [OutputWrite.qcPng] else []) = ws := by
      simpa [handle_error] using h
    subst hws
    split_ifs <;> decide

theorem qc_gate_and_volume_cases {cfg : ImageConfig} {st : StageOutcomes} {q : QCData}
    {inv : Nat} {out : ImageOutcome}
    (h : qc_gate_and_volume cfg st q inv = Except.ok out) :
    (out.error_recorded = false ∧ out.writes = success_writes cfg ∧ q.qc_failure = false) ∨
    (out.error_recorded = true ∧ ∃ qcv ws, handle_error cfg qcv = Except.ok ws ∧
      out.writes = ws) := by
  unfold qc_gate_and_volume at h
  cases hqf : q.qc_failure with
  | true =>
    rw [if_pos hqf] at h
    obtain ⟨ws, hw, rfl⟩ := except_map_ok h
    exact Or.inr ⟨rfl, _, ws, hw, rfl⟩
  | false =>
    rw [if_neg (by simp [hqf])] at h
    cases hmv : st.maskvol_ok with
    | false =>
      rw [if_neg (by simp [hmv])] at h
      obtain ⟨ws, hw, rfl⟩ := except_map_ok h
      exact Or.inr ⟨rfl, _, ws, hw, rfl⟩
    | true =>
      rw [if_pos hmv] at h
      obtain rfl : (⟨success_writes cfg, false, PyVar.val q,
          inv + maskvolInvocations⟩ : ImageOutcome) = out := by
        simpa using h
      exact Or.inl ⟨rfl, rfl, rfl⟩

theorem after_qc_cases {cfg : ImageConfig} {st : StageOutcomes} {q : QCData} {inv : Nat}
    {out : ImageOutcome} (h : after_qc cfg st q inv = Except.ok out) :
    (out.error_recorded = false ∧ out.writes = success_writes cfg ∧ q.qc_failure = false) ∨
    (out.error_recorded = true ∧ ∃ qcv ws, handle_error cfg qcv = Except.ok ws ∧
      out.writes = ws) := by
  unfold after_qc at h
  cases hro : cfg.do_reset_origin with
  | false =>
    rw [if_neg (by simp [hro])] at h
    exact qc_gate_and_volume_cases h
  | true =>
    rw [if_pos hro] at h
    cases hrst : st.reset_ok with
    | true =>
      rw [if_pos hrst] at h
      exact qc_gate_and_volume_cases h
    | false =>
      rw [if_neg (by simp [hrst])] at h
      obtain ⟨ws, hw, rfl⟩ := except_map_ok h
      exact Or.inr ⟨rfl, _, ws, hw, rfl⟩

theorem image_pipeline_ok_cases {cfg : ImageConfig} {st : StageOutcomes}
    {qc0 : PyVar QCData} {out : ImageOutcome}
    (h : image_pipeline cfg st qc0 = Except.ok out) :
    (out.error_recorded = false ∧ out.writes = success_writes cfg ∧
      ∃ q, st.qc = some q ∧ q.qc_failure = false) ∨
    (out.error_recorded = true ∧ ∃ qcv ws, handle_error cfg qcv = Except.ok ws ∧
      out.writes = ws) := by
  unfold image_pipeline at h
  cases hhb : st.hdbet_ok with
  | false =>
    rw [if_neg (by simp [hhb])] at h
    obtain ⟨ws, hw, rfl⟩ := except_map_ok h
    exact Or.inr ⟨rfl, _, ws, hw, rfl⟩
  | true =>
    rw [if_pos hhb] at h
    cases htn : cfg.trim_neck with
    | true =>
      rw [if_pos htn] at h
      cases htr : st.trim_ok with
      | false =>
        rw [if_neg (by simp [htr])] at h
        obtain ⟨ws, hw, rfl⟩ := except_map_ok h
        exact Or.inr ⟨rfl, _, ws, hw, rfl⟩
      | true =>
        rw [if_pos htr] at h
        cases hqc : st.qc with
        | none =>
          rw [hqc] at h
          obtain ⟨ws, hw, rfl⟩ := except_map_ok h
          exact Or.inr ⟨rfl, _, ws, hw, rfl⟩
        | some q =>
          rw [hqc] at h
          rcases after_qc_cases h with ⟨h1, h2, h3⟩ | hr
          · exact Or.inl ⟨h1, h2, q, rfl, h3⟩
          · exact Or.inr hr
    | false =>
      rw [if_neg (by simp [htn])] at h
      cases hqc : st.qc with
      | none =>
        rw [hqc] at h
        obtain ⟨ws, hw, rfl⟩ := except_map_ok h
        exact Or.inr ⟨rfl, _, ws, hw, rfl⟩
      | some q =>
        rw [hqc] at h
        rcases after_qc_cases h with ⟨h1, h2, h3⟩ | hr
        · exact Or.inl ⟨h1, h2, q, rfl, h3⟩
        · exact Or.inr hr

/-- C3: in every completed loop iteration of the batch driver, the preprocessed T1w image,
the brain mask and their sidecars are written only when `get_qc_data` returned
`qc_failure = false`; when the QC gate failed, none of them is written (the QC PNG and the
preserved working directory are the only possible writes). -/
theorem outputs_written_only_on_qc_pass (cfg : ImageConfig) (st : StageOutcomes)
    (qc0 : PyVar QCData) (out : ImageOutcome)
    (h : image_pipeline cfg st qc0 = Except.ok out) :
    ((OutputWrite.preprocT1w ∈ out.writes ∨ OutputWrite.brainMask ∈ out.writes ∨
      OutputWrite.t1wSidecar ∈ out.writes ∨ OutputWrite.maskSidecar ∈ out.writes) →
      ∃ q, st.qc = some q ∧ q.qc_failure = false) ∧
    (∀ q, st.qc = some q → q.qc_failure = true →
      OutputWrite.preprocT1w ∉ out.writes ∧ OutputWrite.brainMask ∉ out.writes ∧
      OutputWrite.t1wSidecar ∉ out.writes ∧ OutputWrite.maskSidecar ∉ out.writes) := by
  rcases image_pipeline_ok_cases h with ⟨he, hw, q, hq, hf⟩ | ⟨he, qcv, ws, hws, hw⟩
  · constructor
    · intro _
      exact ⟨q, hq, hf⟩
    · intro q' hq' hf'
      rw [hq] at hq'
      injection hq' with hqq
      subst hqq
      rw [hf] at hf'
      cases hf'
  · constructor
    · intro hmem
      have h4 := handle_error_writes hws
      rw [hw] at hmem
      rcases hmem with hm | hm | hm | hm
      · exact absurd hm h4.1
      · exact absurd hm h4.2.1
      · exact absurd hm h4.2.2.1
      · exact absurd hm h4.2.2.2
    · intro q' hq' hf'
      rw [hw]
      exact handle_error_writes hws

/-- Witness for C3: a concrete iteration whose QC gate failed writes neither image, mask
nor sidecars. -/
theorem outputs_written_only_on_qc_pass_witness :
    OutputWrite.preprocT1w ∉
      (⟨[OutputWrite.qcPng], true, PyVar.val ⟨true, true⟩, 6⟩ : ImageOutcome).writes ∧
    OutputWrite.brainMask ∉
      (⟨[OutputWrite.qcPng], true, PyVar.val ⟨true, true⟩, 6⟩ : ImageOutcome).writes := by
  have h := (outputs_written_only_on_qc_pass ⟨false, false, KeepWorkdir.never⟩
    ⟨true, true, some ⟨true, true⟩, true, true⟩ PyVar.unbound
    ⟨[OutputWrite.qcPng], true, PyVar.val ⟨true, true⟩, 6⟩ (by decide)).2
    ⟨true, true⟩ rfl rfl
  exact ⟨h.1, h.2.1⟩

/-- C4: evaluation of the batch driver at a brain-extraction failure on the first image.
The claim — that any per-image `PipelineError` is recorded and the batch continues — is
contradicted by the code: when `run_hdbet` raises before the `qc_data = None` assignment,
the `except PipelineError:` handler evaluates `qc_data['qc_rgb_png']` with `qc_data`
unbound, so a `NameError` propagates and aborts the whole batch (and likewise a
`TypeError` when the failure happened between the assignment and the `get_qc_data`
return).  The spec's intent (record, copy QC image, continue) is clear from the handler
itself, so this is a slip in the code. -/
theorem hdbet_failure_first_image_crashes_batch :
    image_pipeline ⟨false, false, KeepWorkdir.on_error⟩
      ⟨false, true, some ⟨false, true⟩, true, true⟩ PyVar.unbound =
      Except.error PyCrash.nameError ∧
    run_batch ⟨false, false, KeepWorkdir.on_error⟩ ⟨none, none, none, none, none⟩ "Out"
      none
      [("sub-01/ses-01/anat/sub-01_ses-01_T1w.nii.gz",
        ⟨false, true, some ⟨false, true⟩, true, true⟩)] [] none =
      Except.error (BatchAbort.crash PyCrash.nameError) := by
  decide

theorem dropWhile_ws_replicate (pad : Nat) (l : List Char) :
    (List.replicate pad ' ' ++ l).dropWhile Char.isWhitespace =
      l.dropWhile Char.isWhitespace := by
  induction pad with
  | zero => rw [List.replicate_zero, List.nil_append]
  | succ n ih =>
    rw [List.replicate_succ, List.cons_append, List.dropWhile_cons, if_pos (by decide)]
    exact ih

theorem lstrip_lstatLine (pad : Nat) (label : Nat) (hl : label ≤ 3) (rest : String) :
    lstrip (lstatLine pad label rest) =
      String.mk ((toString label).data ++ (' ' :: rest.data)) := by
  have hdata : (lstatLine pad label rest).data =
      List.replicate pad ' ' ++ ((toString label).data ++ (' ' :: rest.data)) := by
    simp [lstatLine, String.data_append]
  rw [lstrip, hdata, dropWhile_ws_replicate]
  interval_cases label
  · rw [(by decide : (toString (0 : Nat)).data = ['0']), List.singleton_append,
      List.dropWhile_cons, if_neg (by decide)]
  · rw [(by decide : (toString (1 : Nat)).data = ['1']), List.singleton_append,
      List.dropWhile_cons, if_neg (by decide)]
  · rw [(by decide : (toString (2 : Nat)).data = ['2']), List.singleton_append,
      List.dropWhile_cons, if_neg (by decide)]
  · rw [(by decide : (toString (3 : Nat)).data = ['3']), List.singleton_append,
      List.dropWhile_cons, if_neg (by decide)]

theorem isPrefixOf_singleton_cons (a b : Char) (l : List Char) :
    [a].isPrefixOf (b :: l) = (a == b) := by
  simp [List.isPrefixOf]

theorem startswith_lstrip_two (pad : Nat) (label : Nat) (hl : label ≤ 3) (rest : String) :
    startswith (lstrip (lstatLine pad label rest)) "2" = decide (label = 2) := by
  rw [lstrip_lstatLine pad label hl rest, startswith]
  interval_cases label <;>
  · first
    | (rw [(by decide : (toString (0 : Nat)).data = ['0']), List.singleton_append]; rfl)
    | (rw [(by decide : (toString (1 : Nat)).data = ['1']), List.singleton_append]; rfl)
    | (rw [(by decide : (toString (2 : Nat)).data = ['2']), List.singleton_append]; rfl)
    | (rw [(by decide : (toString (3 : Nat)).data = ['3']), List.singleton_append]; rfl)

theorem startswith_lstrip_three (pad : Nat) (label : Nat) (hl : label ≤ 3) (rest : String) :
    startswith (lstrip (lstatLine pad label rest)) "3" = decide (label = 3) := by
  rw [lstrip_lstatLine pad label hl rest, startswith]
  interval_cases label <;>
  · first
    | (rw [(by decide : (toString (0 : Nat)).data = ['0']), List.singleton_append]; rfl)
    | (rw [(by decide : (toString (1 : Nat)).data = ['1']), List.singleton_append]; rfl)
    | (rw [(by decide : (toString (2 : Nat)).data = ['2']), List.singleton_append]; rfl)
    | (rw [(by decide : (toString (3 : Nat)).data = ['3']), List.singleton_append]; rfl)

theorem any_map_congr {α β : Type} {f : α → β} {p : β → Bool} {q : α → Bool} :
    ∀ (l : List α), (∀ a ∈ l, p (f a) = q a) → (l.map f).any p = l.any q := by
  intro l
  induction l with
  | nil => intro _; rfl
  | cons a t ih =>
    intro h
    rw [List.map_cons, List.any_cons, List.any_cons, h a (by simp),
      ih (fun b hb => h b (by simp [hb]))]

/-- C1: on the label-statistics report of the combined mask (a header line plus one
rendered row per label, every label being one of 0..3 by construction of the combined
mask): if some row reports label 2, the gate fails with the "mask extends outside trimmed
region" message; if no row reports label 3, the gate fails with the "no brain voxels"
message; if rows report labels 1 and 3 and none reports label 2, the gate passes. -/
theorem qc_gate_label_spec (hd : String) (entries : List (Nat × Nat × String))
    (hh2 : startswith (lstrip hd) "2" = false)
    (hh3 : startswith (lstrip hd) "3" = false)
    (hlab : ∀ e ∈ entries, e.2.1 ≤ 3) :
    ((∃ e ∈ entries, e.2.1 = 2) →
      (get_qc_data_gate
        (hd :: entries.map (fun e => lstatLine e.1 e.2.1 e.2.2))).qc_failure = true ∧
      qc_msg_label2 ∈
        (get_qc_data_gate (hd :: entries.map (fun e => lstatLine e.1 e.2.1 e.2.2))).messages) ∧
    ((∀ e ∈ entries, e.2.1 ≠ 3) →
      (get_qc_data_gate
        (hd :: entries.map (fun e => lstatLine e.1 e.2.1 e.2.2))).qc_failure = true ∧
      qc_msg_label3 ∈
        (get_qc_data_gate (hd :: entries.map (fun e => lstatLine e.1 e.2.1 e.2.2))).messages) ∧
    ((∃ e ∈ entries, e.2.1 = 1) → (∃ e ∈ entries, e.2.1 = 3) →
      (∀ e ∈ entries, e.2.1 ≠ 2) →
      (get_qc_data_gate
        (hd :: entries.map (fun e => lstatLine e.1 e.2.1 e.2.2))).qc_failure = false) := by
  have key2 : label_found (hd :: entries.map (fun e => lstatLine e.1 e.2.1 e.2.2)) "2" =
      entries.any (fun e => decide (e.2.1 = 2)) := by
    rw [label_found, List.map_cons, List.any_cons, hh2, Bool.false_or, List.map_map]
    exact any_map_congr entries
      (fun e he => startswith_lstrip_two e.1 e.2.1 (hlab e he) e.2.2)
  have key3 : label_found (hd :: entries.map (fun e => lstatLine e.1 e.2.1 e.2.2)) "3" =
      entries.any (fun e => decide (e.2.1 = 3)) := by
    rw [label_found, List.map_cons, List.any_cons, hh3, Bool.false_or, List.map_map]
    exact any_map_congr entries
      (fun e he => startswith_lstrip_three e.1 e.2.1 (hlab e he) e.2.2)
  refine ⟨?_, ?_, ?_⟩
  · rintro ⟨e, he, he2⟩
    have h2 : entries.any (fun e => decide (e.2.1 = 2)) = true :=
      List.any_eq_true.mpr ⟨e, he, by simp [he2]⟩
    constructor
    · simp [get_qc_data_gate, key2, h2]
    · simp [get_qc_data_gate, key2, h2]
  · intro h3all
    have h3 : entries.any (fun e => decide (e.2.1 = 3)) = false := by
      rw [List.any_eq_false]
      intro e he
      simp [h3all e he]
    constructor
    · simp [get_qc_data_gate, key3, h3]
    · simp [get_qc_data_gate, key3, h3]
  · rintro - ⟨e3, he3, he3q⟩ h2all
    have h3 : entries.any (fun e => decide (e.2.1 = 3)) = true :=
      List.any_eq_true.mpr ⟨e3, he3, by simp [he3q]⟩
    have h2 : entries.any (fun e => decide (e.2.1 = 2)) = false := by
      rw [List.any_eq_false]
      intro e he
      simp [h2all e he]
    simp [get_qc_data_gate, key2, key3, h2, h3]

/-- Witness for C1: a concrete report with rows for labels 0, 1 and 3 (and no label-2 row)
passes the gate, and one with a label-2 row fails it. -/
theorem qc_gate_label_spec_witness :
    (get_qc_data_gate
      ("LabelID        Mean      StdD    Max    Min   Count     Vol(mm^3)" ::
        [(4, 0, "10.1"), (4, 1, "22.5"), (4, 3, "37.9")].map
          (fun e => lstatLine e.1 e.2.1 e.2.2))).qc_failure = false ∧
    (get_qc_data_gate
      ("LabelID        Mean      StdD    Max    Min   Count     Vol(mm^3)" ::
        [(4, 1, "22.5"), (4, 2, "5.0"), (4, 3, "37.9")].map
          (fun e => lstatLine e.1 e.2.1 e.2.2))).qc_failure = true := by
  constructor
  · exact (qc_gate_label_spec "LabelID        Mean      StdD    Max    Min   Count     Vol(mm^3)"
      [(4, 0, "10.1"), (4, 1, "22.5"), (4, 3, "37.9")] (by decide) (by decide)
      (by decide)).2.2 (by decide) (by decide) (by decide)
  · exact ((qc_gate_label_spec "LabelID        Mean      StdD    Max    Min   Count     Vol(mm^3)"
      [(4, 1, "22.5"), (4, 2, "5.0"), (4, 3, "37.9")] (by decide) (by decide)
      (by decide)).1 (by decide)).1

/-- C10 counterexample: an update against an existing description whose `GeneratedBy`
already holds this pipeline's entry (so that list is unchanged) and which has no
`DatasetLinks` field, called with an empty link-path list, gains no entry in either
collection — yet the file is rewritten (`written = true`), because the `ds_modified` check
fires merely on the absence of the old `DatasetLinks` field. -/
theorem update_written_without_growth :
    update_output_dataset ⟨some "v1", none, none, none, none⟩
      (some ⟨some "Out",
        some [⟨"T1wPreprocessing", "unknown", "unknown", "docker", "v1"⟩], none⟩)
      "Out" (some []) =
      Except.ok ⟨⟨some "Out",
        some [⟨"T1wPreprocessing", "unknown", "unknown", "docker", "v1"⟩], some []⟩, true⟩ ∧
    (_get_generated_by ⟨some "v1", none, none, none, none⟩
      (some [⟨"T1wPreprocessing", "unknown", "unknown", "docker", "v1"⟩])).length =
      ([⟨"T1wPreprocessing", "unknown", "unknown", "docker", "v1"⟩] :
        List GeneratedByEntry).length := by
  decide

/-- C10 (amended): for an update against an existing dataset_description.json, the file is
rewritten exactly when the `GeneratedBy` list grew, or link paths were supplied and the
`DatasetLinks` field was absent or grew.  In particular, when neither collection gains an
entry and the `DatasetLinks` field was already present — or no link paths were supplied —
the file is not rewritten. -/
theorem update_written_iff_grew (env : ContainerEnv) (d : DatasetDescription) (nm : String)
    (lp : Option (List (String × String))) (outc : UpdateOutcome) (newLinks : DatasetLinks)
    (h : update_output_dataset env (some d) nm lp = Except.ok outc)
    (hl : _get_dataset_links d.datasetLinks lp = Except.ok newLinks) :
    outc.written = true ↔
      ((d.generatedBy.getD []).length < (_get_generated_by env d.generatedBy).length ∨
        (lp.isSome ∧ (d.datasetLinks = none ∨
          (d.datasetLinks.getD []).length < newLinks.length))) := by
  simp only [update_output_dataset] at h
  cases hn : d.name with
  | none => rw [hn] at h; simp at h
  | some nm0 =>
    rw [hn] at h
    simp only [Option.isNone_some, Bool.false_eq_true, if_false, hl, Bind.bind,
      Except.bind] at h
    obtain rfl : (⟨⟨some nm0, some (_get_generated_by env d.generatedBy), some newLinks⟩,
        (d.generatedBy.isNone ||
          decide ((d.generatedBy.getD []).length <
            (_get_generated_by env d.generatedBy).length)) ||
        (lp.isSome && (d.datasetLinks.isNone ||
          decide ((d.datasetLinks.getD []).length < newLinks.length)))⟩ : UpdateOutcome) =
        outc := by
      simpa using h
    cases hg : d.generatedBy with
    | none => simp [hg, _get_generated_by]
    | some og =>
      cases hdl : d.datasetLinks with
      | none => simp [hg, hdl]
      | some ol => simp [hg, hdl]

/-- Witness for C10's amended theorem: an update whose `GeneratedBy` already holds the
pipeline entry for the set tag and whose `DatasetLinks` already holds the registered link
does not rewrite the file. -/
theorem update_written_iff_grew_witness :
    (⟨⟨some "Out", some [⟨"T1wPreprocessing", "unknown", "unknown", "docker", "v1"⟩],
      some [("In", "file:///in")]⟩, false⟩ : UpdateOutcome).written = false := by
  have h := update_written_iff_grew ⟨some "v1", none, none, none, none⟩
    ⟨some "Out", some [⟨"T1wPreprocessing", "unknown", "unknown", "docker", "v1"⟩],
      some [("In", "file:///in")]⟩
    "Out" (some [("In", "file:///in")])
    ⟨⟨some "Out", some [⟨"T1wPreprocessing", "unknown", "unknown", "docker", "v1"⟩],
      some [("In", "file:///in")]⟩, false⟩
    [("In", "file:///in")] (by decide) (by decide)
  exact Bool.eq_false_iff.mpr (fun hc => absurd (h.mp hc) (by decide))

/-- C7: evaluation of two consecutive batch runs over the same datasets.  With the
container-identity variables unset — the claim's scenario places no condition on them —
the second run does skip every image (zero external-command invocations), but it rewrites
dataset_description.json with a duplicated `GeneratedBy` entry, so the file is not
byte-identical; the claim fails for the reason established for C5.  With
`DOCKER_IMAGE_TAG` set, the second run leaves the description untouched
(`desc_written = false`), as the claim intends. -/
theorem second_run_rewrites_description :
    run_batch rerun_cfg ⟨none, none, none, none, none⟩ "InputDS T1w Preprocessed"
      (some rerun_links) rerun_images [] none =
      Except.ok ⟨rerun_desc_unset, true, ["sub-01_ses-01_T1w"], 7⟩ ∧
    run_batch rerun_cfg ⟨none, none, none, none, none⟩ "InputDS T1w Preprocessed"
      (some rerun_links) rerun_images ["sub-01_ses-01_T1w"] (some rerun_desc_unset) =
      Except.ok ⟨⟨some "InputDS T1w Preprocessed",
        some [⟨"T1wPreprocessing", "unknown", "unknown", "docker", "unknown"⟩,
          ⟨"T1wPreprocessing", "unknown", "unknown", "docker", "unknown"⟩],
        some rerun_links⟩, true, ["sub-01_ses-01_T1w"], 0⟩ ∧
    run_batch rerun_cfg ⟨some "t1", none, none, none, none⟩ "InputDS T1w Preprocessed"
      (some rerun_links) rerun_images ["sub-01_ses-01_T1w"] (some rerun_desc_tagged) =
      Except.ok ⟨rerun_desc_tagged, false, ["sub-01_ses-01_T1w"], 0⟩ := by
  decide

theorem zeroFill_width (H : Nat) (img : PILImage) : (zeroFill H img).width = img.width := rfl

theorem zeroFill_height (H : Nat) (img : PILImage) : (zeroFill H img).height = H := rfl

theorem stitchAt_width : ∀ (imgs : List PILImage) (curw : Nat) (acc : PILImage),
    (stitchAt imgs curw acc).width = acc.width := by
  intro imgs
  induction imgs with
  | nil => intro curw acc; rfl
  | cons img rest ih => intro curw acc; rw [stitchAt]; exact ih _ _

theorem stitchAt_height : ∀ (imgs : List PILImage) (curw : Nat) (acc : PILImage),
    (stitchAt imgs curw acc).height = acc.height := by
  intro imgs
  induction imgs with
  | nil => intro curw acc; rfl
  | cons img rest ih => intro curw acc; rw [stitchAt]; exact ih _ _

theorem stitchAt_pixel_lt : ∀ (imgs : List PILImage) (curw : Nat) (acc : PILImage)
    (x y : Nat), x < curw → (stitchAt imgs curw acc).pixel x y = acc.pixel x y := by
  intro imgs
  induction imgs with
  | nil => intro curw acc x y hx; rfl
  | cons img rest ih =>
    intro curw acc x y hx
    rw [stitchAt, ih _ _ _ _ (hx.trans_le (Nat.le_add_right _ _))]
    show (if curw ≤ x ∧ x < curw + img.width ∧ 0 ≤ y ∧ y < 0 + img.height
        then img.pixel (x - curw) (y - 0) else acc.pixel x y) = acc.pixel x y
    exact if_neg (fun hc => Nat.not_lt.mpr hc.1 hx)

theorem stitchAt_pixel_tile : ∀ (imgs : List PILImage) (i : Nat) (hi : i < imgs.length)
    (curw : Nat) (acc : PILImage) (x y : Nat), x < imgs[i].width → y < imgs[i].height →
    (stitchAt imgs curw acc).pixel (curw + widthsBefore imgs i + x) y =
      imgs[i].pixel x y := by
  intro imgs
  induction imgs with
  | nil => intro i hi; exact absurd hi (by simp)
  | cons img rest ih =>
    intro i hi curw acc x y hx hy
    cases i with
    | zero =>
      have hw0 : widthsBefore (img :: rest) 0 = 0 := rfl
      rw [stitchAt, hw0, Nat.add_zero]
      simp only [List.getElem_cons_zero] at hx hy ⊢
      rw [stitchAt_pixel_lt rest _ _ _ _ (by omega)]
      show (if curw ≤ curw + x ∧ curw + x < curw + img.width ∧ 0 ≤ y ∧ y < 0 + img.height
          then img.pixel (curw + x - curw) (y - 0) else acc.pixel (curw + x) y) =
        img.pixel x y
      rw [if_pos ⟨Nat.le_add_right _ _, by omega, Nat.zero_le _, by omega⟩,
        Nat.add_sub_cancel_left, Nat.sub_zero]
    | succ j =>
      have hws : widthsBefore (img :: rest) (j + 1) =
          img.width + widthsBefore rest j := by
        simp [widthsBefore]
      have hj : j < rest.length := by simpa using hi
      simp only [List.getElem_cons_succ] at hx hy ⊢
      have harg : curw + widthsBefore (img :: rest) (j + 1) + x =
          (curw + img.width) + widthsBefore rest j + x := by rw [hws]; omega
      rw [stitchAt, harg]
      exact ih j hj (curw + img.width) (paste acc img curw 0) x y hx hy

theorem zeroFill_pixel_gap (H : Nat) (img : PILImage) (x y : Nat)
    (hy : y < H - img.height) : (zeroFill H img).pixel x y = black := by
  show (if 0 ≤ x ∧ x < 0 + img.width ∧ H - img.height ≤ y ∧
      y < (H - img.height) + img.height
      then img.pixel (x - 0) (y - (H - img.height)) else black) = black
  exact if_neg (fun hc => Nat.not_lt.mpr hc.2.2.1 hy)

theorem le_foldl_max (l : List Nat) :
    ∀ (a : Nat), a ≤ l.foldl max a ∧ ∀ x ∈ l, x ≤ l.foldl max a := by
  induction l with
  | nil => intro a; exact ⟨Nat.le_refl a, by simp⟩
  | cons b t ih =>
    intro a
    rw [List.foldl_cons]
    refine ⟨Nat.le_trans (Nat.le_max_left a b) (ih (max a b)).1, ?_⟩
    intro x hx
    rcases List.mem_cons.mp hx with rfl | hx'
    · exact Nat.le_trans (Nat.le_max_right a x) (ih (max a x)).1
    · exact (ih (max a b)).2 x hx'

theorem foldl_max_mem (l : List Nat) :
    ∀ (a : Nat), l.foldl max a = a ∨ l.foldl max a ∈ l := by
  induction l with
  | nil => intro a; exact Or.inl rfl
  | cons b t ih =>
    intro a
    rw [List.foldl_cons]
    rcases ih (max a b) with h | h
    · rcases max_choice a b with h2 | h2
      · exact Or.inl (h.trans h2)
      · exact Or.inr (by rw [h, h2]; exact List.mem_cons_self _ _)
    · exact Or.inr (List.mem_cons_of_mem _ h)

/-- C8: for every non-empty input list, `tile_images` produces an image whose width is the
sum of the input widths and whose height is the maximum input height, and inside each
input's horizontal span the rows above that (bottom-aligned) input — the rows it does not
cover — are background black. -/
theorem tile_images_spec (images : List PILImage) (hne : images ≠ []) :
    (tile_images images).width = (images.map (fun im => im.width)).sum ∧
    (∀ im ∈ images, im.height ≤ (tile_images images).height) ∧
    (∃ im ∈ images, (tile_images images).height = im.height) ∧
    ∀ i (hi : i < images.length) (x y : Nat), x < images[i].width →
      y < (tile_images images).height - images[i].height →
      (tile_images images).pixel (widthsBefore images i + x) y = black := by
  have hheight : (tile_images images).height =
      (images.map (fun im => im.height)).foldl max 0 := by
    simp only [tile_images]
    rw [stitchAt_height]
    rfl
  have hwb : ∀ i, widthsBefore (images.map
      (zeroFill ((images.map (fun im => im.height)).foldl max 0))) i =
      widthsBefore images i := by
    intro i
    simp [widthsBefore, ← List.map_take, List.map_map, Function.comp_def, zeroFill_width]
  refine ⟨?_, ?_, ?_, ?_⟩
  · simp only [tile_images]
    rw [stitchAt_width]
    simp [imageNew, List.map_map, Function.comp_def, zeroFill_width]
  · intro im him
    rw [hheight]
    exact (le_foldl_max (images.map (fun im => im.height)) 0).2 im.height
      (List.mem_map_of_mem _ him)
  · rw [hheight]
    rcases foldl_max_mem (images.map (fun im => im.height)) 0 with h0 | hmem
    · obtain ⟨im0, hin⟩ : ∃ im, im ∈ images := by
        cases images with
        | nil => exact absurd rfl hne
        | cons a t => exact ⟨a, by simp⟩
      have hle := (le_foldl_max (images.map (fun im => im.height)) 0).2 im0.height
        (List.mem_map_of_mem _ hin)
      exact ⟨im0, hin, by omega⟩
    · obtain ⟨im, hin, him⟩ := List.mem_map.mp hmem
      exact ⟨im, hin, him.symm⟩
  · intro i hi x y hx hy
    rw [hheight] at hy
    simp only [tile_images]
    have hzlen : i < (images.map
        (zeroFill ((images.map (fun im => im.height)).foldl max 0))).length := by
      simpa using hi
    have hpix := stitchAt_pixel_tile
      (images.map (zeroFill ((images.map (fun im => im.height)).foldl max 0))) i hzlen 0
      (imageNew ((images.map
        (zeroFill ((images.map (fun im => im.height)).foldl max 0))).map
          (fun im => im.width)).sum ((images.map (fun im => im.height)).foldl max 0))
      x y (by simp [zeroFill, paste, imageNew, hx]) (by
        simp only [List.getElem_map]
        show y < ((images.map (fun im => im.height)).foldl max 0)
        omega)
    rw [hwb i, Nat.zero_add] at hpix
    rw [hpix]
    simp only [List.getElem_map]
    exact zeroFill_pixel_gap _ _ x y hy

/-- Witness for C8: tiling a 2x1 slice with a 1x3 slice gives a 3x3 image whose top-left
pixel — a row the first input does not cover — is black. -/
theorem tile_images_spec_witness :
    (tile_images [tileInputA, tileInputB]).width = 3 ∧
    (tile_images [tileInputA, tileInputB]).pixel 0 0 = black := by
  have h := tile_images_spec [tileInputA, tileInputB] (by simp)
  constructor
  · rw [h.1]; decide
  · have hg := h.2.2.2 0 (by decide) 0 0 (by decide) (by decide)
    simpa [widthsBefore] using hg

end T1wPrep
